import Mathlib

/-!
Verification of the renewable-portfolio dashboard core (`app.py`): the
path-resolution layer, the site catalog, and the aggregation engine
(historical rolling averages, annual-total distribution sample, duration
curve, covariate scatter sampling).  Filesystem state is modelled as explicit
lists of existing directory and file paths (a path being its list of
components); pandas tables are modelled as explicit row / column lists over
`ℚ`.  Each definition is a direct translation of the corresponding Python
function.
-/

/-- A snapshot of the filesystem: the set of existing directories and the set
of existing files, each path given by its components from some fixed root. -/
structure FileSystem where
  dirs : List (List String)
  files : List (List String)
deriving DecidableEq

/-- `Path.exists()`: true if the path is an existing directory or file. -/
def pathExists (fs : FileSystem) (p : List String) : Bool :=
  decide (p ∈ fs.dirs ∨ p ∈ fs.files)

/-- A real filesystem is prefix-closed: every proper nonempty prefix of an
existing file path is an existing directory. -/
def prefixClosed (fs : FileSystem) : Prop :=
  ∀ p ∈ fs.files, ∀ n, 0 < n → n < p.length → p.take n ∈ fs.dirs

/-- The fixed metric-token → folder-name table of the three resolvers
(`folder_map.get(metric_type, metric_type)`): an unrecognized token maps to
itself. -/
def folderMap (metric_type : String) : String :=
  if metric_type = "generation" then "Generation"
  else if metric_type = "price_da" then "Price_da"
  else if metric_type = "price_rt" then "Price_rt"
  else if metric_type = "revenue_da" then "Revenue_da"
  else if metric_type = "revenue_rt" then "Revenue_rt"
  else metric_type

/-- The naming-convention filename `{site}_{metric}_{temporal}_{category}.parquet`. -/
def conventionName (site_name metric_type temporal category : String) : String :=
  site_name ++ "_" ++ metric_type ++ "_" ++ temporal ++ "_" ++ category ++ ".parquet"

/-- `find_distribution_file`: checks the metric folder, then the
`forecast/distribution` directory, then returns the conventional path iff the
file exists (`file_path if file_path.exists() else None`). -/
def find_distribution_file (fs : FileSystem) (portfolio_path : List String)
    (site_name metric_type temporal : String) : Option (List String) :=
  let metric_folder := portfolio_path ++ [site_name, folderMap metric_type]
  if ¬ pathExists fs metric_folder then none
  else
    let dist_path := metric_folder ++ ["forecast", "distribution"]
    if ¬ pathExists fs dist_path then none
    else
      let file_path := dist_path ++ [conventionName site_name metric_type temporal "distribution"]
      if pathExists fs file_path then some file_path else none

/-- `find_timeseries_file`: same shape as the distribution resolver but under
`forecast/timeseries`. -/
def find_timeseries_file (fs : FileSystem) (portfolio_path : List String)
    (site_name metric_type temporal : String) : Option (List String) :=
  let metric_folder := portfolio_path ++ [site_name, folderMap metric_type]
  if ¬ pathExists fs metric_folder then none
  else
    let ts_path := metric_folder ++ ["forecast", "timeseries"]
    if ¬ pathExists fs ts_path then none
    else
      let file_path := ts_path ++ [conventionName site_name metric_type temporal "timeseries"]
      if pathExists fs file_path then some file_path else none

/-- `find_historical_file`: checks only the `historical` directory (not the
metric folder), then returns the conventional path iff the file exists. -/
def find_historical_file (fs : FileSystem) (portfolio_path : List String)
    (site_name metric_type temporal : String) : Option (List String) :=
  let metric_folder := portfolio_path ++ [site_name, folderMap metric_type]
  let hist_path := metric_folder ++ ["historical"]
  if ¬ pathExists fs hist_path then none
  else
    let file_path := hist_path ++ [conventionName site_name metric_type temporal "historical"]
    if pathExists fs file_path then some file_path else none

/-- Character-list version of `str.startswith`. -/
def listStarts : List Char → List Char → Bool
  | [], _ => true
  | _ :: _, [] => false
  | a :: as, b :: bs => a = b && listStarts as bs

/-- `str.startswith(pat)`. -/
def strStarts (s pat : String) : Bool :=
  listStarts pat.data s.data

/-- The names of the entries directly under `root` (`Path.iterdir()` yields
each child once; modelled as the deduplicated child names of the listed
directories and files). -/
def childNames (fs : FileSystem) (root : List String) : List String :=
  ((fs.dirs ++ fs.files).filterMap (fun p =>
    if p.take root.length = root ∧ p.length = root.length + 1 then p.getLast? else none)).dedup

/-- The qualification test of `get_all_sites`: a directory whose name does not
start with `bootstrap_selections` and that contains at least one of the five
metric folders. -/
def siteQualifies (fs : FileSystem) (root : List String) (name : String) : Bool :=
  decide ((root ++ [name]) ∈ fs.dirs) &&
  ! strStarts name "bootstrap_selections" &&
  (pathExists fs (root ++ [name, "Generation"]) ||
   pathExists fs (root ++ [name, "Price_da"]) ||
   pathExists fs (root ++ [name, "Price_rt"]) ||
   pathExists fs (root ++ [name, "Revenue_da"]) ||
   pathExists fs (root ++ [name, "Revenue_rt"]))

/-- `get_all_sites`: the qualifying child names, sorted (`sorted(sites)`). -/
def get_all_sites (fs : FileSystem) (root : List String) : List String :=
  List.insertionSort (· ≤ ·) ((childNames fs root).filter (siteQualifies fs root))

/-- `Path.name`: the last component of a path (empty for the empty path). -/
def pathName (p : List String) : String :=
  p.getLast?.getD ""

/-- The two recognized portfolio folder names. -/
def portfolioParquetName : String := "Renewable Portfolio LLC_parquet"

/-- The plain portfolio folder name. -/
def portfolioPlainName : String := "Renewable Portfolio LLC"

/-- `RenewablePortfolioDashboard.__init__` portfolio-root discovery: with no
override, take the first existing of `cwd/"Renewable Portfolio LLC_parquet"`,
`cwd/"Renewable Portfolio LLC"`, `cwd`; then, whenever the chosen path's final
component is not one of the two portfolio names, descend into a contained
portfolio subfolder (`_parquet` preferred) when one exists. -/
def resolvePortfolioPath (fs : FileSystem) (cwd : List String)
    (base_path : Option (List String)) : List String :=
  let p0 :=
    match base_path with
    | none =>
      if pathExists fs (cwd ++ [portfolioParquetName]) then cwd ++ [portfolioParquetName]
      else if pathExists fs (cwd ++ [portfolioPlainName]) then cwd ++ [portfolioPlainName]
      else cwd
    | some b => b
  if pathName p0 = portfolioPlainName ∨ pathName p0 = portfolioParquetName then p0
  else if pathExists fs (p0 ++ [portfolioParquetName]) then p0 ++ [portfolioParquetName]
  else if pathExists fs (p0 ++ [portfolioPlainName]) then p0 ++ [portfolioPlainName]
  else p0

/-- A row of a historical table: the calendar columns plus the named numeric
columns of the row (historical observations carry no missing values). -/
structure HistRow where
  year : Int
  month : Int
  day : Int
  hour : Int
  cols : List (String × ℚ)
deriving DecidableEq

/-- A historical table: its column names and its rows. -/
structure HistTable where
  columns : List String
  rows : List HistRow
deriving DecidableEq

/-- The value of a named column in a row. -/
def colVal (r : HistRow) (c : String) : ℚ :=
  (r.cols.lookup c).getD 0

/-- The value-column name determined by `(metric_type, temporal)` in
`calculate_historical_average`; `none` models the unbound `value_col` (a
`NameError` swallowed by the surrounding `except`) for an unrecognized
metric. -/
def valueColName (metric_type temporal : String) : Option String :=
  if metric_type = "generation" then
    if temporal = "hourly" then some "generation_mw"
    else some (temporal ++ "_generation_mwh")
  else if metric_type = "price_da" ∨ metric_type = "price_rt" then
    some (if temporal = "daily" ∨ temporal = "monthly" then "weighted_price" else metric_type)
  else if metric_type = "revenue_da" ∨ metric_type = "revenue_rt" then
    some metric_type
  else none

/-- Ascending sorted distinct values (`sorted(df[col].unique())`). -/
def sortedUniqueInt (l : List Int) : List Int :=
  List.insertionSort (· ≤ ·) l.dedup

/-- `years if len(years) < num_years else years[-num_years:]`.  Note the
Python edge case at `num_years = 0`: the slice `years[-0:]` is `years[0:]`,
the whole list, not the empty tail. -/
def lastNYears (years : List Int) (num_years : Nat) : List Int :=
  if years.length < num_years then years
  else if num_years = 0 then years
  else years.drop (years.length - num_years)

/-- Lexicographic order on grouping keys. -/
def keyLe : List Int → List Int → Bool
  | [], _ => true
  | _ :: _, [] => false
  | a :: as, b :: bs => if a < b then true else if b < a then false else keyLe as bs

/-- The distinct grouping keys, in the ascending order pandas `groupby`
produces. -/
def groupKeys (keys : List (List Int)) : List (List Int) :=
  List.insertionSort (fun a b => keyLe a b = true) keys.dedup

/-- `df.groupby(key)[value_col].mean().reset_index()`: one row per distinct
key, holding the arithmetic mean of the value column over that key's rows. -/
def groupMean (keyOf : HistRow → List Int) (value_col : String)
    (rows : List HistRow) : List (List Int × ℚ) :=
  (groupKeys (rows.map keyOf)).map (fun k =>
    let grp := rows.filter (fun r => decide (keyOf r = k))
    (k, (grp.map (fun r => colVal r value_col)).sum / (grp.length : ℚ)))

/-- `'price' in metric_type` (substring containment on characters). -/
def containsSeq (sub : List Char) : List Char → Bool
  | [] => listStarts sub []
  | c :: rest => listStarts sub (c :: rest) || containsSeq sub rest

/-- The pure aggregation of `calculate_historical_average` after the file has
been loaded: pick the value column, take the last `num_years` distinct
calendar years, filter, and group-mean by the period key of the temporal
resolution (`hour` alone for hourly generation / `'price' in metric_type`,
`(month, day, hour)` otherwise); `none` for an unrecognized metric (the
unbound `value_col` fault is caught), a missing column, or an unknown
temporal token (the function body ends without a `return`). -/
def histAverage (df : HistTable) (metric_type temporal : String)
    (num_years : Nat) : Option (List (List Int × ℚ)) :=
  match valueColName metric_type temporal with
  | none => none
  | some value_col =>
    if ¬ (value_col ∈ df.columns) then none
    else
      let years := sortedUniqueInt (df.rows.map (·.year))
      let last_years := lastNYears years num_years
      let df_recent := df.rows.filter (fun r => r.year ∈ last_years)
      if temporal = "monthly" then
        some (groupMean (fun r => [r.month]) value_col df_recent)
      else if temporal = "daily" then
        some (groupMean (fun r => [r.month, r.day]) value_col df_recent)
      else if temporal = "hourly" then
        if metric_type = "generation" || containsSeq "price".data metric_type.data then
          some (groupMean (fun r => [r.hour]) value_col df_recent)
        else
          some (groupMean (fun r => [r.month, r.day, r.hour]) value_col df_recent)
      else none

/-- `calculate_historical_average`: resolve the historical file, load it with
the ambient reader, and aggregate; `none` when the file is missing. -/
def calculate_historical_average (fs : FileSystem) (readTable : List String → HistTable)
    (portfolio_path : List String) (site_name metric_type temporal : String)
    (num_years : Nat) : Option (List (List Int × ℚ)) :=
  match find_historical_file fs portfolio_path site_name metric_type temporal with
  | none => none
  | some p => histAverage (readTable p) metric_type temporal num_years

/-- A column of a timeseries table: its name and its per-period values,
`none` marking a missing (or non-numeric) entry. -/
structure TSCol where
  name : String
  values : List (Option ℚ)
deriving DecidableEq

/-- A timeseries table as its list of columns. -/
structure TSTable where
  cols : List TSCol
deriving DecidableEq

/-- `str(col).isdigit()` together with `1980 <= int(col) <= 2024`. -/
def isYearName (name : String) : Bool :=
  ! name.data.isEmpty && name.data.all Char.isDigit &&
  (let v := name.data.foldl (fun acc c => 10 * acc + (c.toNat - 48)) 0
   1980 ≤ v && v ≤ 2024)

/-- `year_cols`: the integer-named columns in the historical-year range. -/
def yearColsOf (t : TSTable) : List TSCol :=
  t.cols.filter (fun c => isYearName c.name)

/-- `path_cols`: the simulated-path columns. -/
def pathColsOf (t : TSTable) : List TSCol :=
  t.cols.filter (fun c => strStarts c.name "path_")

/-- `all_cols = year_cols + path_cols`. -/
def allColsOf (t : TSTable) : List TSCol :=
  yearColsOf t ++ pathColsOf t

/-- The non-missing entries of a column (`dropna`). -/
def nonMissing (c : TSCol) : List ℚ :=
  c.values.filterMap id

/-- The annual-total sample of `create_annual_distribution`: every year/path
column with exactly 12 non-missing values (`df[col].notna().sum() == 12`)
contributes the sum of its values (`df[col].sum()` skips missing entries). -/
def annualValues (t : TSTable) : List ℚ :=
  (allColsOf t).filterMap (fun c =>
    if (nonMissing c).length = 12 then some (nonMissing c).sum else none)

/-- The pooled sample of `create_duration_curve`: every year/path column
coerced to numeric with non-numeric entries dropped, flattened in order. -/
def pooledValues (t : TSTable) : List ℚ :=
  ((allColsOf t).map nonMissing).flatten

/-- `np.percentile(xs, q)` with the default linear interpolation. -/
def np_percentile (xs : List ℚ) (q : ℚ) : ℚ :=
  let s := List.insertionSort (· ≤ ·) xs
  if s.length = 0 then 0
  else
    let h : ℚ := q * ((s.length : ℚ) - 1) / 100
    let i : Nat := (⌊h⌋).toNat
    let lo := s.getD i 0
    let hi := s.getD (min (i + 1) (s.length - 1)) 0
    lo + (h - (i : ℚ)) * (hi - lo)

/-- `np.linspace(0, 100, n)`. -/
def np_linspace_0_100 (n : Nat) : List ℚ :=
  (List.range n).map (fun i => if n = 1 then 0 else 100 * (i : ℚ) / ((n : ℚ) - 1))

/-- The numeric content of a rendered duration curve. -/
structure DurationCurveResult where
  duration_pct : List ℚ
  values : List ℚ
  mean_value : ℚ
  p10_val : ℚ
  p50_val : ℚ
  p90_val : ℚ
deriving DecidableEq

/-- `create_duration_curve` after loading the hourly timeseries table: pool
all year/path columns, sort descending (`np.sort(all_values)[::-1]`), pair
with `np.linspace(0, 100, n)`, and attach the mean and the label-inverted
percentiles (`p10_val = np.percentile(all_values, 90)` etc.); `none` when the
pooled sample is empty (the insufficient-data alert). -/
def create_duration_curve (t : TSTable) : Option DurationCurveResult :=
  let all_values := pooledValues t
  if all_values.isEmpty then none
  else
    let sorted_values := (List.insertionSort (· ≤ ·) all_values).reverse
    some { duration_pct := np_linspace_0_100 sorted_values.length
           values := sorted_values
           mean_value := all_values.sum / (all_values.length : ℚ)
           p10_val := np_percentile all_values 90
           p50_val := np_percentile all_values 50
           p90_val := np_percentile all_values 10 }

/-- A row of the hourly historical table used by the scatter plots. -/
structure ObsRow where
  year : Int
  month : Int
  day : Int
  hour : Int
  generation_mw : ℚ
  shortwave_radiation : ℚ
  temperature_2m : ℚ
deriving DecidableEq

/-- `df.groupby('year').size()`: the number of rows of a given year. -/
def yearCount (rows : List ObsRow) (y : Int) : Nat :=
  (rows.filter (fun r => r.year == y)).length

/-- `complete_years`: the distinct years with at least 8760 observed hours. -/
def completeYears (rows : List ObsRow) : List Int :=
  (rows.map (·.year)).dedup.filter (fun y => 8760 ≤ yearCount rows y)

/-- A deterministic mixing function standing in for the seeded pseudo-random
stream of `DataFrame.sample(n, random_state)`. -/
def sampleKey (random_state i : Nat) : Nat :=
  (1103515245 * i + 12345 + random_state) % 2147483648

/-- Model of pandas `DataFrame.sample(n=n, random_state=s)`: a deterministic
pseudo-random sample without replacement — exactly `n` rows whenever the
frame has at least `n` — obtained by ordering the rows along a stream fixed
by the seed (the exact Mersenne-Twister stream is a library internal; only
determinism, the subset property, and the size contract are relied on). -/
def pandasSample {α : Type} (n random_state : Nat) (xs : List α) : List α :=
  ((List.insertionSort (fun a b : Nat × α => sampleKey random_state a.1 ≤ sampleKey random_state b.1)
    xs.enum).map Prod.snd).take n

/-- The year selection and row filtering shared by the two scatter plots:
keep the last `k` complete years, then rows with `generation_mw > 0.1` and
`shortwave_radiation > 0`. -/
def scatterFiltered (k : Nat) (rows : List ObsRow) : List ObsRow :=
  let years_to_use := lastNYears (List.insertionSort (· ≤ ·) (completeYears rows)) k
  (rows.filter (fun r => r.year ∈ years_to_use)).filter
    (fun r => decide (r.generation_mw > 0.1) && decide (r.shortwave_radiation > 0))

/-- The row selection of `create_ghi_vs_generation_hour`: last 10 complete
years, filter, insufficient-data alerts below 100 rows and for no complete
year, and a seed-42 sample of 10000 rows when the filtered set is larger. -/
def create_ghi_vs_generation_hour (rows : List ObsRow) : Option (List ObsRow) :=
  if (completeYears rows).isEmpty then none
  else
    let df_filtered := scatterFiltered 10 rows
    if df_filtered.length < 100 then none
    else if 10000 < df_filtered.length then some (pandasSample 10000 42 df_filtered)
    else some df_filtered

/-- The row selection of `create_ghi_vs_generation_temp`: identical to the
hour-coloured variant except that only the last 5 complete years are kept. -/
def create_ghi_vs_generation_temp (rows : List ObsRow) : Option (List ObsRow) :=
  if (completeYears rows).isEmpty then none
  else
    let df_filtered := scatterFiltered 5 rows
    if df_filtered.length < 100 then none
    else if 10000 < df_filtered.length then some (pandasSample 10000 42 df_filtered)
    else some df_filtered

/-- The spec-side year selection: the last `min(numYears, availableYears)`
distinct calendar years, ascending sort, tail slice. -/
def lastYearsSpec (df : HistTable) (n : Nat) : List Int :=
  let years := sortedUniqueInt (df.rows.map (·.year))
  years.drop (years.length - min n years.length)

/-- The spec-side row selection: the rows of the last years.  It agrees with
the program for `n ≥ 1` but diverges at `n = 0`, where the program's
`years[-0:]` keeps every year while this formula keeps none. -/
def selectedRows (df : HistTable) (n : Nat) : List HistRow :=
  df.rows.filter (fun r => r.year ∈ lastYearsSpec df n)

/-- The row selection the program actually performs (`df_recent`): the rows
whose year survives the `last_years` slice. -/
def codeSelectedRows (df : HistTable) (n : Nat) : List HistRow :=
  df.rows.filter (fun r =>
    r.year ∈ lastNYears (sortedUniqueInt (df.rows.map (·.year))) n)

/-- Example filesystem: one site with one conventional file of each
category. -/
def exFS1 : FileSystem where
  dirs := [["s1"], ["s1", "Generation"], ["s1", "Generation", "forecast"],
    ["s1", "Generation", "forecast", "distribution"],
    ["s1", "Generation", "forecast", "timeseries"],
    ["s1", "Generation", "historical"]]
  files := [["s1", "Generation", "forecast", "distribution",
      "s1_generation_monthly_distribution.parquet"],
    ["s1", "Generation", "forecast", "timeseries",
      "s1_generation_monthly_timeseries.parquet"],
    ["s1", "Generation", "historical", "s1_generation_monthly_historical.parquet"]]

/-- Example filesystem: empty. -/
def exFS2 : FileSystem where
  dirs := []
  files := []

/-- Example filesystem for the site catalog: one qualifying site, one child
without metric folders, one reserved-prefix child. -/
def exFS8 : FileSystem where
  dirs := [["r", "beta"], ["r", "alpha"], ["r", "alpha", "Generation"],
    ["r", "bootstrap_selections_2024"]]
  files := []

/-- Example filesystem for the site catalog with no qualifying child. -/
def exFS8e : FileSystem where
  dirs := [["r", "bootstrap_selections_2024"]]
  files := []

/-- Example filesystem for root discovery: an override directory named
`Renewable Portfolio LLC` that itself contains a `Renewable Portfolio
LLC_parquet` subfolder. -/
def exFS9 : FileSystem where
  dirs := [["d", "Renewable Portfolio LLC"],
    ["d", "Renewable Portfolio LLC", "Renewable Portfolio LLC_parquet"]]
  files := []

/-- Example filesystem in which the silent folder fallback finds an existing
historical file for the unrecognized metric token `foo`. -/
def exFS10 : FileSystem where
  dirs := [["s1"], ["s1", "foo"], ["s1", "foo", "historical"]]
  files := [["s1", "foo", "historical", "s1_foo_monthly_historical.parquet"]]

/-- Example historical table reader. -/
def exRead10 : List String → HistTable :=
  fun _ => ⟨["year", "month", "foo"], [⟨2020, 1, 1, 0, [("foo", 3)]⟩]⟩

/-- Example historical table for the monthly rolling average: two January
observations in different years with values 10 and 20. -/
def exDf3 : HistTable where
  columns := ["year", "month", "monthly_generation_mwh"]
  rows := [⟨2020, 1, 0, 0, [("monthly_generation_mwh", 10)]⟩,
    ⟨2021, 1, 0, 0, [("monthly_generation_mwh", 20)]⟩]

/-- Example historical table for the hourly grouping branch. -/
def exDf4 : HistTable where
  columns := ["year", "month", "day", "hour", "revenue_da"]
  rows := [⟨2020, 1, 1, 0, [("revenue_da", 4)]⟩, ⟨2020, 1, 1, 1, [("revenue_da", 6)]⟩]

/-- Example monthly timeseries table: one complete year column of twelve
ones, one path column with only eleven non-missing values. -/
def exT5 : TSTable where
  cols := [⟨"2020", [some 1, some 1, some 1, some 1, some 1, some 1, some 1, some 1,
      some 1, some 1, some 1, some 1]⟩,
    ⟨"path_1", [some 1, some 1, some 1, some 1, some 1, some 1, some 1, some 1,
      some 1, some 1, some 1, none]⟩]

/-- Example hourly timeseries table whose pooled sample is `[10, 20, 30, 40,
50]`. -/
def exT6 : TSTable where
  cols := [⟨"2020", [some 10, some 20, some 30, some 40, some 50]⟩]

/-- Example observation row. -/
def exObs : ObsRow := ⟨2020, 1, 1, 0, 1, 1, 1⟩

theorem pathExists_true_iff (fs : FileSystem) (p : List String) :
    pathExists fs p = true ↔ (p ∈ fs.dirs ∨ p ∈ fs.files) := by
  simp [pathExists]

/-- C2: whenever the conventional distribution file does not exist — in
particular when the metric folder or the `forecast/distribution` directory is
itself missing — `find_distribution_file` returns the not-found signal
(`none`); the function is total, so no exception escapes. -/
theorem find_distribution_file_none_of_missing
    (fs : FileSystem) (root : List String) (site_name metric_type temporal : String)
    (h : pathExists fs (root ++ [site_name, folderMap metric_type, "forecast", "distribution",
      conventionName site_name metric_type temporal "distribution"]) = false) :
    find_distribution_file fs root site_name metric_type temporal = none := by
  unfold find_distribution_file
  cases h1 : pathExists fs (root ++ [site_name, folderMap metric_type]) with
  | false => simp [h1]
  | true =>
    cases h2 : pathExists fs (root ++ [site_name, folderMap metric_type, "forecast",
        "distribution"]) with
    | false => simp [h1, h2]
    | true => simp [h1, h2, h]

/-- C2 witness: on the empty filesystem the resolver returns `none`. -/
theorem find_distribution_file_none_of_missing_witness :
    find_distribution_file exFS2 [] "s1" "generation" "monthly" = none :=
  find_distribution_file_none_of_missing exFS2 [] "s1" "generation" "monthly" (by decide)

/-- C10: for any metric token other than the five recognized ones,
`calculate_historical_average` returns `none` and propagates no fault (the
unbound `value_col` is caught inside the function), even when the resolver's
silent folder fallback finds an existing historical file for the token. -/
theorem calculate_historical_average_none_of_unknown_metric
    (fs : FileSystem) (readTable : List String → HistTable) (root : List String)
    (site_name temporal : String) (num_years : Nat) (metric_type : String)
    (h : metric_type ∉ ["generation", "price_da", "price_rt", "revenue_da", "revenue_rt"]) :
    calculate_historical_average fs readTable root site_name metric_type temporal num_years
      = none := by
  simp only [List.mem_cons, List.mem_singleton, not_or] at h
  obtain ⟨h1, h2, h3, h4, h5⟩ := h
  have hvc : valueColName metric_type temporal = none := by
    simp [valueColName, h1, h2, h3, h4, h5]
  unfold calculate_historical_average
  cases hfind : find_historical_file fs root site_name metric_type temporal with
  | none => rfl
  | some p => simp [histAverage, hvc]

/-- C10 witness: the token `foo` resolves (via the silent fallback) to an
existing historical file, yet the rolling average is `none`. -/
theorem calculate_historical_average_none_of_unknown_metric_witness :
    (find_historical_file exFS10 [] "s1" "foo" "monthly").isSome = true ∧
    calculate_historical_average exFS10 exRead10 [] "s1" "foo" "monthly" 10 = none :=
  ⟨by decide,
   calculate_historical_average_none_of_unknown_metric exFS10 exRead10 [] "s1" "monthly" 10
    "foo" (by decide)⟩

theorem take_append_left_of_le {α : Type} (l₁ l₂ : List α) (n : Nat) (h : l₁.length ≤ n) :
    (l₁ ++ l₂).take n = l₁ ++ l₂.take (n - l₁.length) := by
  rw [List.take_append_eq_append_take, List.take_of_length_le h]

theorem pathExists_of_dir_prefix (fs : FileSystem) (hfs : prefixClosed fs)
    (p : List String) (hp : p ∈ fs.files) (n : Nat) (h0 : 0 < n) (hn : n < p.length) :
    pathExists fs (p.take n) = true := by
  rw [pathExists_true_iff]
  exact Or.inl (hfs p hp n h0 hn)

/-- C1: each resolver returns exactly the conventional path
`{root}/{site}/{folder}/forecast/{category}/{site}_{metric}_{temporal}_{category}.parquet`
(`{root}/{site}/{folder}/historical/...` for the historical category)
whenever that file exists on a prefix-closed filesystem, with the folder
given by the fixed five-entry table and any unrecognized metric token mapping
to itself as the folder name, no error being raised. -/
theorem resolvers_return_conventional_path
    (fs : FileSystem) (root : List String) (site_name metric_type temporal : String)
    (hfs : prefixClosed fs) :
    (∀ m, m ∉ ["generation", "price_da", "price_rt", "revenue_da", "revenue_rt"] →
      folderMap m = m) ∧
    ((root ++ [site_name, folderMap metric_type, "forecast", "distribution",
        conventionName site_name metric_type temporal "distribution"]) ∈ fs.files →
      find_distribution_file fs root site_name metric_type temporal =
        some (root ++ [site_name, folderMap metric_type, "forecast", "distribution",
          conventionName site_name metric_type temporal "distribution"])) ∧
    ((root ++ [site_name, folderMap metric_type, "forecast", "timeseries",
        conventionName site_name metric_type temporal "timeseries"]) ∈ fs.files →
      find_timeseries_file fs root site_name metric_type temporal =
        some (root ++ [site_name, folderMap metric_type, "forecast", "timeseries",
          conventionName site_name metric_type temporal "timeseries"])) ∧
    ((root ++ [site_name, folderMap metric_type, "historical",
        conventionName site_name metric_type temporal "historical"]) ∈ fs.files →
      find_historical_file fs root site_name metric_type temporal =
        some (root ++ [site_name, folderMap metric_type, "historical",
          conventionName site_name metric_type temporal "historical"])) := by
  refine ⟨?_, ?_, ?_, ?_⟩
  · intro m hm
    simp only [List.mem_cons, List.mem_singleton, not_or] at hm
    obtain ⟨h1, h2, h3, h4, h5⟩ := hm
    simp [folderMap, h1, h2, h3, h4, h5]
  · intro hp
    have hlen : (root ++ [site_name, folderMap metric_type, "forecast", "distribution",
        conventionName site_name metric_type temporal "distribution"]).length
        = root.length + 5 := by simp
    have h2 : pathExists fs (root ++ [site_name, folderMap metric_type]) = true := by
      have := pathExists_of_dir_prefix fs hfs _ hp (root.length + 2) (by omega) (by omega)
      rwa [take_append_left_of_le _ _ _ (by omega), Nat.add_sub_cancel_left] at this
    have h4 : pathExists fs (root ++ [site_name, folderMap metric_type, "forecast",
        "distribution"]) = true := by
      have := pathExists_of_dir_prefix fs hfs _ hp (root.length + 4) (by omega) (by omega)
      rwa [take_append_left_of_le _ _ _ (by omega), Nat.add_sub_cancel_left] at this
    have h5 : pathExists fs (root ++ [site_name, folderMap metric_type, "forecast",
        "distribution", conventionName site_name metric_type temporal "distribution"])
        = true := by
      rw [pathExists_true_iff]; exact Or.inr hp
    simp [find_distribution_file, h2, h4, h5]
  · intro hp
    have hlen : (root ++ [site_name, folderMap metric_type, "forecast", "timeseries",
        conventionName site_name metric_type temporal "timeseries"]).length
        = root.length + 5 := by simp
    have h2 : pathExists fs (root ++ [site_name, folderMap metric_type]) = true := by
      have := pathExists_of_dir_prefix fs hfs _ hp (root.length + 2) (by omega) (by omega)
      rwa [take_append_left_of_le _ _ _ (by omega), Nat.add_sub_cancel_left] at this
    have h4 : pathExists fs (root ++ [site_name, folderMap metric_type, "forecast",
        "timeseries"]) = true := by
      have := pathExists_of_dir_prefix fs hfs _ hp (root.length + 4) (by omega) (by omega)
      rwa [take_append_left_of_le _ _ _ (by omega), Nat.add_sub_cancel_left] at this
    have h5 : pathExists fs (root ++ [site_name, folderMap metric_type, "forecast",
        "timeseries", conventionName site_name metric_type temporal "timeseries"])
        = true := by
      rw [pathExists_true_iff]; exact Or.inr hp
    simp [find_timeseries_file, h2, h4, h5]
  · intro hp
    have hlen : (root ++ [site_name, folderMap metric_type, "historical",
        conventionName site_name metric_type temporal "historical"]).length
        = root.length + 4 := by simp
    have h3 : pathExists fs (root ++ [site_name, folderMap metric_type, "historical"])
        = true := by
      have := pathExists_of_dir_prefix fs hfs _ hp (root.length + 3) (by omega) (by omega)
      rwa [take_append_left_of_le _ _ _ (by omega), Nat.add_sub_cancel_left] at this
    have h5 : pathExists fs (root ++ [site_name, folderMap metric_type, "historical",
        conventionName site_name metric_type temporal "historical"]) = true := by
      rw [pathExists_true_iff]; exact Or.inr hp
    simp [find_historical_file, h3, h5]

theorem exFS1_prefixClosed : prefixClosed exFS1 := by
  intro p hp n h0 hn
  fin_cases hp <;> simp at hn <;> interval_cases n <;> decide

/-- C1 witness: on a concrete filesystem holding one conventional file of
each category, every resolver returns that file's path, and an unrecognized
token maps to itself. -/
theorem resolvers_return_conventional_path_witness :
    find_distribution_file exFS1 [] "s1" "generation" "monthly" =
      some ["s1", "Generation", "forecast", "distribution",
        "s1_generation_monthly_distribution.parquet"] ∧
    find_timeseries_file exFS1 [] "s1" "generation" "monthly" =
      some ["s1", "Generation", "forecast", "timeseries",
        "s1_generation_monthly_timeseries.parquet"] ∧
    find_historical_file exFS1 [] "s1" "generation" "monthly" =
      some ["s1", "Generation", "historical", "s1_generation_monthly_historical.parquet"] ∧
    folderMap "foo" = "foo" := by
  have h := resolvers_return_conventional_path exFS1 [] "s1" "generation" "monthly"
    exFS1_prefixClosed
  refine ⟨?_, ?_, ?_, h.1 "foo" (by decide)⟩
  · have := h.2.1 (by decide)
    simpa using this
  · have := h.2.2.1 (by decide)
    simpa using this
  · have := h.2.2.2 (by decide)
    simpa using this

theorem pandasSample_length {α : Type} (n random_state : Nat) (xs : List α) :
    (pandasSample n random_state xs).length = min n xs.length := by
  unfold pandasSample
  rw [List.length_take, List.length_map,
    (List.perm_insertionSort _ xs.enum).length_eq, List.enum_length]

/-- C7: both covariate scatter variants return at most 10000 rows; being pure
functions of the table they are deterministic (two runs agree exactly); and
the seed-42 sample taken when the filtered set exceeds 10000 rows has exactly
10000 rows. -/
theorem scatter_sampling_bounded_deterministic
    (rows : List ObsRow) (xs : List ObsRow) (hxs : 10000 ≤ xs.length) :
    (∀ res, create_ghi_vs_generation_hour rows = some res → res.length ≤ 10000) ∧
    (∀ res, create_ghi_vs_generation_temp rows = some res → res.length ≤ 10000) ∧
    create_ghi_vs_generation_hour rows = create_ghi_vs_generation_hour rows ∧
    create_ghi_vs_generation_temp rows = create_ghi_vs_generation_temp rows ∧
    (pandasSample 10000 42 xs).length = 10000 := by
  refine ⟨?_, ?_, rfl, rfl, ?_⟩
  · intro res h
    unfold create_ghi_vs_generation_hour at h
    split at h
    · simp at h
    · dsimp only at h
      split at h
      · simp at h
      · split at h
        · injection h with h
          subst h
          rw [pandasSample_length]
          omega
        · next h3 =>
            injection h with h
            subst h
            omega
  · intro res h
    unfold create_ghi_vs_generation_temp at h
    split at h
    · simp at h
    · dsimp only at h
      split at h
      · simp at h
      · split at h
        · injection h with h
          subst h
          rw [pandasSample_length]
          omega
        · next h3 =>
            injection h with h
            subst h
            omega
  · rw [pandasSample_length]
    omega

/-- C7 witness: the seed-42 sample of a 10000-row frame has exactly 10000
rows. -/
theorem scatter_sampling_bounded_deterministic_witness :
    (pandasSample 10000 42 (List.replicate 10000 exObs)).length = 10000 :=
  (scatter_sampling_bounded_deterministic [] (List.replicate 10000 exObs)
    (by simp only [List.length_replicate]; exact le_rfl)).2.2.2.2

theorem mem_childNames (fs : FileSystem) (root : List String) (s : String) :
    s ∈ childNames fs root ↔ (root ++ [s]) ∈ fs.dirs ++ fs.files := by
  unfold childNames
  rw [List.mem_dedup, List.mem_filterMap]
  constructor
  · rintro ⟨p, hp, hf⟩
    split at hf
    · next hc =>
        obtain ⟨a, ha⟩ := List.length_eq_one.mp
          (by rw [List.length_drop, hc.2]; omega : (p.drop root.length).length = 1)
        have hpe : p = root ++ [a] := by
          conv_lhs => rw [← List.take_append_drop root.length p]
          rw [hc.1, ha]
        rw [hpe, List.getLast?_concat] at hf
        cases hf
        rwa [hpe] at hp
    · cases hf
  · intro hmem
    refine ⟨root ++ [s], hmem, ?_⟩
    rw [if_pos ⟨List.take_left root [s], by simp⟩, List.getLast?_concat]

/-- C8: `get_all_sites` is alphabetically sorted and duplicate-free, its
members are exactly the immediate subdirectories of the portfolio root that
do not start with `bootstrap_selections` and contain at least one of the
five metric folders, and when nothing qualifies it returns the empty list
rather than an error. -/
theorem get_all_sites_correct (fs : FileSystem) (root : List String) :
    List.Sorted (· ≤ ·) (get_all_sites fs root) ∧
    (get_all_sites fs root).Nodup ∧
    (∀ s, s ∈ get_all_sites fs root ↔
      (root ++ [s]) ∈ fs.dirs ∧ strStarts s "bootstrap_selections" = false ∧
      (pathExists fs (root ++ [s, "Generation"]) = true ∨
       pathExists fs (root ++ [s, "Price_da"]) = true ∨
       pathExists fs (root ++ [s, "Price_rt"]) = true ∨
       pathExists fs (root ++ [s, "Revenue_da"]) = true ∨
       pathExists fs (root ++ [s, "Revenue_rt"]) = true)) ∧
    ((∀ s ∈ childNames fs root, siteQualifies fs root s = false) →
      get_all_sites fs root = []) := by
  refine ⟨List.sorted_insertionSort _ _, ?_, ?_, ?_⟩
  · exact (List.perm_insertionSort _ _).symm.nodup
      (List.Nodup.filter _ (List.nodup_dedup _))
  · intro s
    rw [get_all_sites, (List.perm_insertionSort _ _).mem_iff, List.mem_filter]
    constructor
    · rintro ⟨hcn, hq⟩
      simp only [siteQualifies, Bool.and_eq_true, Bool.or_eq_true, decide_eq_true_eq,
        Bool.not_eq_true'] at hq
      refine ⟨hq.1.1, hq.1.2, ?_⟩
      tauto
    · rintro ⟨hdir, hbs, hmf⟩
      refine ⟨(mem_childNames fs root s).mpr (List.mem_append_left _ hdir), ?_⟩
      simp only [siteQualifies, Bool.and_eq_true, Bool.or_eq_true, decide_eq_true_eq,
        Bool.not_eq_true']
      refine ⟨⟨hdir, hbs⟩, ?_⟩
      tauto
  · intro hnone
    rw [get_all_sites, List.filter_eq_nil_iff.mpr (fun a ha => by simp [hnone a ha])]
    rfl

/-- C8 witness: on a concrete root, `alpha` (a directory with a `Generation`
folder) is listed, the output is sorted and duplicate-free, and a root with
only a reserved-prefix child yields the empty list. -/
theorem get_all_sites_correct_witness :
    List.Sorted (· ≤ ·) (get_all_sites exFS8 ["r"]) ∧
    (get_all_sites exFS8 ["r"]).Nodup ∧
    "alpha" ∈ get_all_sites exFS8 ["r"] ∧
    ("beta" ∈ get_all_sites exFS8 ["r"] → False) ∧
    get_all_sites exFS8e ["r"] = [] := by
  refine ⟨(get_all_sites_correct exFS8 ["r"]).1, (get_all_sites_correct exFS8 ["r"]).2.1,
    ((get_all_sites_correct exFS8 ["r"]).2.2.1 "alpha").mpr (by decide), ?_, ?_⟩
  · intro hb
    have := ((get_all_sites_correct exFS8 ["r"]).2.2.1 "beta").mp hb
    revert this
    decide
  · refine (get_all_sites_correct exFS8e ["r"]).2.2.2 ?_
    intro s hs
    have hc : childNames exFS8e ["r"] = ["bootstrap_selections_2024"] := by decide
    rw [hc] at hs
    simp only [List.mem_singleton] at hs
    subst hs
    decide

/-- C9 counterexample: an explicit override whose final component is
`Renewable Portfolio LLC` is kept as-is even though it contains a
`Renewable Portfolio LLC_parquet` subfolder, contradicting the claim that
the contained subfolder would be preferred. -/
theorem resolvePortfolioPath_override_counterexample :
    resolvePortfolioPath exFS9 ["w"] (some ["d", "Renewable Portfolio LLC"]) =
      ["d", "Renewable Portfolio LLC"] ∧
    pathExists exFS9 (["d", "Renewable Portfolio LLC"] ++ [portfolioParquetName]) = true ∧
    ["d", "Renewable Portfolio LLC"] ≠
      ["d", "Renewable Portfolio LLC"] ++ [portfolioParquetName] := by
  decide

/-- C9 (amended): with no override the root is the first existing of
`cwd/"Renewable Portfolio LLC_parquet"`, `cwd/"Renewable Portfolio LLC"`,
`cwd`; an explicit override whose final component is one of the two portfolio
folder names is used as-is; any other override is replaced by its contained
portfolio subfolder (the `_parquet` one preferred) when one exists, else used
as-is. -/
theorem resolvePortfolioPath_correct (fs : FileSystem) (cwd b : List String) :
    (resolvePortfolioPath fs cwd none =
      (if pathExists fs (cwd ++ [portfolioParquetName]) then cwd ++ [portfolioParquetName]
       else if pathExists fs (cwd ++ [portfolioPlainName]) then cwd ++ [portfolioPlainName]
       else cwd)) ∧
    (pathName b = portfolioPlainName ∨ pathName b = portfolioParquetName →
      resolvePortfolioPath fs cwd (some b) = b) ∧
    (¬ (pathName b = portfolioPlainName ∨ pathName b = portfolioParquetName) →
      resolvePortfolioPath fs cwd (some b) =
        (if pathExists fs (b ++ [portfolioParquetName]) then b ++ [portfolioParquetName]
         else if pathExists fs (b ++ [portfolioPlainName]) then b ++ [portfolioPlainName]
         else b)) := by
  refine ⟨?_, ?_, ?_⟩
  · unfold resolvePortfolioPath
    cases h1 : pathExists fs (cwd ++ [portfolioParquetName]) with
    | true =>
      have hn : pathName (cwd ++ [portfolioParquetName]) = portfolioParquetName := by
        simp [pathName, List.getLast?_concat]
      simp [h1, hn]
    | false =>
      cases h2 : pathExists fs (cwd ++ [portfolioPlainName]) with
      | true =>
        have hn : pathName (cwd ++ [portfolioPlainName]) = portfolioPlainName := by
          simp [pathName, List.getLast?_concat]
        simp [h1, h2, hn]
      | false =>
        by_cases h3 : pathName cwd = portfolioPlainName ∨ pathName cwd = portfolioParquetName
        · simp [h1, h2, h3]
        · simp [h1, h2, h3]
  · intro h
    unfold resolvePortfolioPath
    simp [h]
  · intro h
    unfold resolvePortfolioPath
    simp [h]

/-- C9 witness: a magic-named override is kept as-is; a plainly-named
override with no portfolio subfolder is also kept; with no override and no
portfolio folder under the working directory the working directory itself is
used. -/
theorem resolvePortfolioPath_correct_witness :
    resolvePortfolioPath exFS9 ["w"] (some ["d", "Renewable Portfolio LLC"]) =
      ["d", "Renewable Portfolio LLC"] ∧
    resolvePortfolioPath exFS9 ["w"] (some ["x"]) =
      (if pathExists exFS9 (["x"] ++ [portfolioParquetName]) then
        ["x"] ++ [portfolioParquetName]
       else if pathExists exFS9 (["x"] ++ [portfolioPlainName]) then
        ["x"] ++ [portfolioPlainName]
       else ["x"]) ∧
    resolvePortfolioPath exFS9 ["w"] none =
      (if pathExists exFS9 (["w"] ++ [portfolioParquetName]) then
        ["w"] ++ [portfolioParquetName]
       else if pathExists exFS9 (["w"] ++ [portfolioPlainName]) then
        ["w"] ++ [portfolioPlainName]
       else ["w"]) :=
  ⟨(resolvePortfolioPath_correct exFS9 ["w"] ["d", "Renewable Portfolio LLC"]).2.1
      (by decide),
   (resolvePortfolioPath_correct exFS9 ["w"] ["x"]).2.2 (by decide),
   (resolvePortfolioPath_correct exFS9 ["w"] ["x"]).1⟩

theorem lastNYears_eq_spec (ys : List Int) (n : Nat) (hn : n ≠ 0) :
    lastNYears ys n = ys.drop (ys.length - min n ys.length) := by
  unfold lastNYears
  split_ifs with h1
  · rw [min_eq_right (le_of_lt h1), Nat.sub_self, List.drop_zero]
  · rw [min_eq_left (le_of_not_lt h1)]

theorem codeSelectedRows_eq_spec (df : HistTable) (n : Nat) (hn : n ≠ 0) :
    codeSelectedRows df n = selectedRows df n := by
  unfold codeSelectedRows selectedRows lastYearsSpec
  rw [lastNYears_eq_spec _ _ hn]

theorem groupMean_keys (keyOf : HistRow → List Int) (vc : String) (rows : List HistRow) :
    (groupMean keyOf vc rows).map Prod.fst = groupKeys (rows.map keyOf) := by
  unfold groupMean
  rw [List.map_map]
  exact List.map_id _

theorem groupKeys_nodup (keys : List (List Int)) : (groupKeys keys).Nodup :=
  (List.perm_insertionSort _ _).symm.nodup (List.nodup_dedup keys)

theorem mem_groupKeys (keys : List (List Int)) (k : List Int) :
    k ∈ groupKeys keys ↔ k ∈ keys := by
  rw [groupKeys, (List.perm_insertionSort _ _).mem_iff, List.mem_dedup]

theorem groupMean_mem (keyOf : HistRow → List Int) (vc : String) (rows : List HistRow)
    (k : List Int) (q : ℚ) (h : (k, q) ∈ groupMean keyOf vc rows) :
    k ∈ rows.map keyOf ∧
    q = ((rows.filter (fun r => decide (keyOf r = k))).map (fun r => colVal r vc)).sum /
        (((rows.filter (fun r => decide (keyOf r = k))).length : ℚ)) := by
  unfold groupMean at h
  rw [List.mem_map] at h
  obtain ⟨k2, hk2, heq⟩ := h
  rw [Prod.mk.injEq] at heq
  obtain ⟨hk, hq⟩ := heq
  subst hk
  exact ⟨(mem_groupKeys _ _).mp hk2, hq.symm⟩

theorem histAverage_monthly_eq (df : HistTable) (metric_type : String) (num_years : Nat)
    (value_col : String)
    (hvc : valueColName metric_type "monthly" = some value_col)
    (hcol : value_col ∈ df.columns) :
    histAverage df metric_type "monthly" num_years =
      some (groupMean (fun r => [r.month]) value_col (codeSelectedRows df num_years)) := by
  unfold histAverage
  rw [hvc]
  dsimp only
  rw [if_neg (not_not_intro hcol), if_pos rfl]
  rfl

/-- C3 (amended): for a monthly historical table with the required columns
and `numYears ≥ 1`, the rolling average returns exactly one row per distinct
month present among the rows of the last `min(numYears, availableYears)`
distinct calendar years (ascending sort, tail slice — so it never errors on
insufficient history), with `historical_avg` the arithmetic mean of the value
column over that month's selected rows.  At `numYears = 0` the program's
slice `years[-0:]` keeps every year, so the `min` formula does not describe
it there (see the counterexample). -/
theorem hist_avg_monthly_correct (df : HistTable) (metric_type : String) (num_years : Nat)
    (value_col : String) (hn : num_years ≠ 0)
    (hvc : valueColName metric_type "monthly" = some value_col)
    (hcol : value_col ∈ df.columns) :
    histAverage df metric_type "monthly" num_years =
      some (groupMean (fun r => [r.month]) value_col (selectedRows df num_years)) ∧
    ((groupMean (fun r => [r.month]) value_col (selectedRows df num_years)).map
      Prod.fst).Nodup ∧
    (∀ m : Int,
      [m] ∈ (groupMean (fun r => [r.month]) value_col (selectedRows df num_years)).map
        Prod.fst ↔ m ∈ (selectedRows df num_years).map (·.month)) ∧
    (∀ k q, (k, q) ∈ groupMean (fun r => [r.month]) value_col (selectedRows df num_years) →
      ∃ m : Int, k = [m] ∧
        q = (((selectedRows df num_years).filter (fun r => decide (r.month = m))).map
              (fun r => colVal r value_col)).sum /
            ((((selectedRows df num_years).filter
              (fun r => decide (r.month = m))).length : ℚ))) := by
  refine ⟨(histAverage_monthly_eq df metric_type num_years value_col hvc hcol).trans
    (by rw [codeSelectedRows_eq_spec df num_years hn]), ?_, ?_, ?_⟩
  · rw [groupMean_keys]
    exact groupKeys_nodup _
  · intro m
    rw [groupMean_keys, mem_groupKeys]
    constructor
    · intro h
      rw [List.mem_map] at h
      obtain ⟨r, hr, hrm⟩ := h
      rw [List.mem_map]
      exact ⟨r, hr, by simpa using hrm⟩
    · intro h
      rw [List.mem_map] at h
      obtain ⟨r, hr, hrm⟩ := h
      rw [List.mem_map]
      exact ⟨r, hr, by simpa using hrm⟩
  · intro k q hkq
    obtain ⟨hk, hq⟩ := groupMean_mem _ _ _ _ _ hkq
    rw [List.mem_map] at hk
    obtain ⟨r0, _, hr0⟩ := hk
    refine ⟨r0.month, hr0.symm, ?_⟩
    rw [hq]
    have hfil : (selectedRows df num_years).filter (fun r => decide ([r.month] = k)) =
        (selectedRows df num_years).filter (fun r => decide (r.month = r0.month)) := by
      apply List.filter_congr
      intro r _
      rw [decide_eq_decide, ← hr0]
      simp
    rw [hfil]

/-- C3 witness: for rows `{year 2020, month 1, value 10}` and `{year 2021,
month 1, value 20}` with `numYears = 10`, the monthly rolling average is
exactly `month 1 → 15`. -/
theorem hist_avg_monthly_correct_witness :
    histAverage exDf3 "generation" "monthly" 10 = some [([1], 15)] ∧
    ([(1 : Int)] ∈ (groupMean (fun r => [r.month]) "monthly_generation_mwh"
        (selectedRows exDf3 10)).map Prod.fst ↔
      (1 : Int) ∈ (selectedRows exDf3 10).map (·.month)) := by
  have h := hist_avg_monthly_correct exDf3 "generation" 10 "monthly_generation_mwh"
    (by decide) (by decide) (by decide)
  refine ⟨?_, h.2.2.1 1⟩
  rw [h.1]
  have hsel : selectedRows exDf3 10 = exDf3.rows := by decide
  rw [hsel]
  have hkeys : groupKeys (exDf3.rows.map (fun r => [r.month])) = [[1]] := by decide
  unfold groupMean
  rw [hkeys]
  simp only [List.map_cons, List.map_nil, exDf3]
  norm_num [colVal, List.filter, List.lookup]

/-- C3 counterexample: at `numYears = 0` the program still averages over all
available years — `years[-0:]` is the whole list — returning `month 1 → 15`
on the two-row table, whereas the claimed `min(numYears, availableYears)`
tail slice selects no year at all, whose grouped mean is the empty table. -/
theorem hist_avg_monthly_correct_counterexample :
    histAverage exDf3 "generation" "monthly" 0 = some [([1], 15)] ∧
    groupMean (fun r => [r.month]) "monthly_generation_mwh" (selectedRows exDf3 0) = [] ∧
    ([([(1 : Int)], (15 : ℚ))] : List (List Int × ℚ)) ≠ [] := by
  refine ⟨?_, by decide, by decide⟩
  rw [histAverage_monthly_eq exDf3 "generation" 0 "monthly_generation_mwh"
    (by decide) (by decide)]
  have hsel : codeSelectedRows exDf3 0 = exDf3.rows := by decide
  rw [hsel]
  have hkeys : groupKeys (exDf3.rows.map (fun r => [r.month])) = [[1]] := by decide
  unfold groupMean
  rw [hkeys]
  simp only [List.map_cons, List.map_nil, exDf3]
  norm_num [colVal, List.filter, List.lookup]

theorem histAverage_hourly_eq (df : HistTable) (metric_type : String) (num_years : Nat)
    (value_col : String)
    (hvc : valueColName metric_type "hourly" = some value_col)
    (hcol : value_col ∈ df.columns) :
    histAverage df metric_type "hourly" num_years =
      some (if metric_type = "generation" || containsSeq "price".data metric_type.data then
        groupMean (fun r => [r.hour]) value_col (codeSelectedRows df num_years)
      else groupMean (fun r => [r.month, r.day, r.hour]) value_col
        (codeSelectedRows df num_years)) := by
  unfold histAverage
  rw [hvc]
  dsimp only
  rw [if_neg (not_not_intro hcol), if_neg (by decide), if_neg (by decide), if_pos rfl]
  split <;> rfl

/-- C4: for an hourly historical table, the rolling average groups by the
`hour` column alone when the metric is generation or either price metric, and
by the `(month, day, hour)` triple for the revenue metrics, in both cases
taking the group-wise arithmetic mean of the value column over the rows of
the years the program selects. -/
theorem hist_avg_hourly_grouping (df : HistTable) (metric_type : String) (num_years : Nat)
    (value_col : String)
    (hvc : valueColName metric_type "hourly" = some value_col)
    (hcol : value_col ∈ df.columns) :
    histAverage df metric_type "hourly" num_years =
      some (if metric_type = "generation" ∨ metric_type = "price_da" ∨
          metric_type = "price_rt" then
        groupMean (fun r => [r.hour]) value_col (codeSelectedRows df num_years)
      else groupMean (fun r => [r.month, r.day, r.hour]) value_col
        (codeSelectedRows df num_years)) := by
  have hfive : metric_type = "generation" ∨ metric_type = "price_da" ∨
      metric_type = "price_rt" ∨ metric_type = "revenue_da" ∨
      metric_type = "revenue_rt" := by
    by_contra hno
    push_neg at hno
    obtain ⟨n1, n2, n3, n4, n5⟩ := hno
    simp [valueColName, n1, n2, n3, n4, n5] at hvc
  rw [histAverage_hourly_eq df metric_type num_years value_col hvc hcol]
  rcases hfive with h | h | h | h | h <;> subst h
  · rw [if_pos (by decide), if_pos (by tauto)]
  · rw [if_pos (by decide), if_pos (by tauto)]
  · rw [if_pos (by decide), if_pos (by tauto)]
  · rw [if_neg (by decide), if_neg (by decide)]
  · rw [if_neg (by decide), if_neg (by decide)]

/-- C4 witness: for a concrete hourly revenue table the result groups by the
`(month, day, hour)` triple, and for a generation table by `hour` alone. -/
theorem hist_avg_hourly_grouping_witness :
    histAverage exDf4 "revenue_da" "hourly" 10 =
      some (groupMean (fun r => [r.month, r.day, r.hour]) "revenue_da"
        (codeSelectedRows exDf4 10)) ∧
    histAverage exDf4 "revenue_da" "hourly" 10 = some [([1, 1, 0], 4), ([1, 1, 1], 6)] := by
  have h := hist_avg_hourly_grouping exDf4 "revenue_da" 10 "revenue_da"
    (by decide) (by decide)
  rw [if_neg (by decide)] at h
  refine ⟨h, ?_⟩
  rw [h]
  have hsel : codeSelectedRows exDf4 10 = exDf4.rows := by decide
  rw [hsel]
  have hkeys : groupKeys (exDf4.rows.map (fun r => [r.month, r.day, r.hour])) =
      [[1, 1, 0], [1, 1, 1]] := by decide
  unfold groupMean
  rw [hkeys]
  simp only [List.map_cons, List.map_nil, exDf4]
  norm_num [colVal, List.filter, List.lookup]

theorem isYearName_not_path (nm : String) (h : isYearName nm = true) :
    strStarts nm "path_" = false := by
  unfold isYearName at h
  cases hd : nm.data with
  | nil => rw [hd] at h; simp at h
  | cons c cs =>
    rw [hd] at h
    simp only [Bool.and_eq_true, List.all_cons] at h
    have hc : c.isDigit = true := by tauto
    have hp : ¬ ('p' = c) := by
      intro heq
      rw [← heq] at hc
      exact absurd hc (by decide)
    unfold strStarts
    rw [hd]
    show listStarts ('p' :: ['a', 't', 'h', '_']) (c :: cs) = false
    simp [listStarts, hp]

theorem filterMap_if_filter {α β : Type} (s : α → Bool) (c : α → Prop) [DecidablePred c]
    (g : α → β) (l : List α) :
    List.filterMap (fun a => if c a then some (g a) else none) (l.filter s) =
    (l.filter (fun a => s a && decide (c a))).map g := by
  induction l with
  | nil => rfl
  | cons a l ih =>
    by_cases hs : s a = true
    · by_cases hc : c a
      · simp [List.filter_cons, hs, hc, List.filterMap_cons, ih]
      · simp [List.filter_cons, hs, hc, List.filterMap_cons, ih]
    · simp [List.filter_cons, hs, ih]

theorem filterMap_append_filters_perm {α β : Type} (p q : α → Bool)
    (hpq : ∀ a, p a = true → q a = false) (f : α → Option β) (l : List α) :
    List.Perm (List.filterMap f (l.filter p ++ l.filter q))
      (List.filterMap f (l.filter (fun a => p a || q a))) := by
  induction l with
  | nil => exact List.Perm.refl _
  | cons a l ih =>
    by_cases hp : p a = true
    · have hq := hpq a hp
      rw [List.filter_cons_of_pos hp, List.filter_cons_of_neg (by simp [hq]),
        List.filter_cons_of_pos (by simp [hp])]
      cases hf : f a with
      | none => simpa [List.filterMap_cons, hf] using ih
      | some b =>
        simp only [List.cons_append, List.filterMap_cons, hf]
        exact ih.cons b
    · by_cases hq : q a = true
      · rw [List.filter_cons_of_neg (by simp [hp]), List.filter_cons_of_pos hq,
          List.filter_cons_of_pos (by simp [hq])]
        rw [List.filterMap_append] at ih ⊢
        cases hf : f a with
        | none => simpa [List.filterMap_cons, hf] using ih
        | some b =>
          simp only [List.filterMap_cons, hf]
          exact List.Perm.trans List.perm_middle (ih.cons b)
      · rw [List.filter_cons_of_neg (by simp [hp]), List.filter_cons_of_neg (by simp [hq]),
          List.filter_cons_of_neg (by simp [hp, hq])]
        exact ih

/-- C5: the annual-total sample consists of exactly the table columns whose
name is an all-digit year in 1980–2024 or carries the `path_` prefix and that
hold exactly 12 non-missing values, each contributing the sum of its values;
for one complete year of twelve ones and one 11-value column, the sample is
`[12]` and its size is 1. -/
theorem annual_distribution_sample_exact (t : TSTable) :
    List.Perm (annualValues t)
      ((t.cols.filter (fun c => (isYearName c.name || strStarts c.name "path_") &&
          decide ((nonMissing c).length = 12))).map (fun c => (nonMissing c).sum)) ∧
    annualValues exT5 = [12] ∧
    (annualValues exT5).length = 1 := by
  have hex : annualValues exT5 = [12] := by
    norm_num [annualValues, allColsOf, yearColsOf, pathColsOf, exT5, nonMissing,
      isYearName, strStarts, listStarts, List.filter, List.filterMap]
  refine ⟨?_, hex, by rw [hex]; rfl⟩
  unfold annualValues allColsOf yearColsOf pathColsOf
  refine List.Perm.trans
    (filterMap_append_filters_perm (fun c : TSCol => isYearName c.name)
      (fun c : TSCol => strStarts c.name "path_")
      (fun c hc => isYearName_not_path c.name hc) _ _) ?_
  rw [filterMap_if_filter (fun c : TSCol => isYearName c.name || strStarts c.name "path_")
    (fun c : TSCol => (nonMissing c).length = 12) (fun c : TSCol => (nonMissing c).sum)
    t.cols]

/-- C6: for a non-empty pooled sample, the duration curve is the pooled
sample sorted descending paired position-wise with `linspace(0, 100, n)`; the
mean is the arithmetic mean of the pooled sample; and the output labels
invert percentile sense — the `P10` value is the statistical 90th percentile
of the pooled distribution and the `P90` value the statistical 10th. -/
theorem duration_curve_correct (t : TSTable) (h : pooledValues t ≠ []) :
    create_duration_curve t = some
      { duration_pct := np_linspace_0_100 (pooledValues t).length
        values := (List.insertionSort (· ≤ ·) (pooledValues t)).reverse
        mean_value := (pooledValues t).sum / ((pooledValues t).length : ℚ)
        p10_val := np_percentile (pooledValues t) 90
        p50_val := np_percentile (pooledValues t) 50
        p90_val := np_percentile (pooledValues t) 10 } ∧
    List.Perm ((List.insertionSort (· ≤ ·) (pooledValues t)).reverse) (pooledValues t) ∧
    List.Sorted (· ≥ ·) ((List.insertionSort (· ≤ ·) (pooledValues t)).reverse) := by
  refine ⟨?_, ?_, ?_⟩
  · unfold create_duration_curve
    rw [if_neg (by simpa [List.isEmpty_iff] using h)]
    dsimp only
    have hlen : ((List.insertionSort (· ≤ ·) (pooledValues t)).reverse).length
        = (pooledValues t).length := by
      rw [List.length_reverse, (List.perm_insertionSort _ _).length_eq]
    rw [hlen]
  · exact (List.reverse_perm _).trans (List.perm_insertionSort _ _)
  · exact List.pairwise_reverse.mpr (List.sorted_insertionSort (· ≤ ·) (pooledValues t))

/-- C6 witness: pooled sample `[10, 20, 30, 40, 50]` yields the curve
`[50, 40, 30, 20, 10]` at durations `[0, 25, 50, 75, 100]` with mean 30, the
`P10` slot holding the 90th percentile and the `P90` slot the 10th. -/
theorem duration_curve_correct_witness :
    pooledValues exT6 = [10, 20, 30, 40, 50] ∧
    create_duration_curve exT6 = some
      { duration_pct := [0, 25, 50, 75, 100]
        values := [50, 40, 30, 20, 10]
        mean_value := 30
        p10_val := np_percentile [10, 20, 30, 40, 50] 90
        p50_val := np_percentile [10, 20, 30, 40, 50] 50
        p90_val := np_percentile [10, 20, 30, 40, 50] 10 } := by
  have hp : pooledValues exT6 = [10, 20, 30, 40, 50] := by decide
  have h := (duration_curve_correct exT6 (by rw [hp]; simp)).1
  rw [hp] at h
  refine ⟨hp, ?_⟩
  rw [h]
  have hsort : List.insertionSort (· ≤ ·) ([10, 20, 30, 40, 50] : List ℚ)
      = [10, 20, 30, 40, 50] := by
    norm_num [List.insertionSort, List.orderedInsert]
  have hlin : np_linspace_0_100 ([10, 20, 30, 40, 50] : List ℚ).length
      = [0, 25, 50, 75, 100] := by
    norm_num [np_linspace_0_100, List.range_succ]
  have hmean : (([10, 20, 30, 40, 50] : List ℚ)).sum /
      ((([10, 20, 30, 40, 50] : List ℚ)).length : ℚ) = 30 := by
    norm_num
  rw [hsort, hlin, hmean]
  rfl
